import Mathlib

/-!
Shallow embedding of the leaf logical-plan operators of
`python/ray/data/_internal/logical/operators/input_data_operator.py` and
`python/ray/data/_internal/logical/operators/from_operators.py`.

The block-reference type, the schema type and the exec-stats type are opaque
to this code, so they are type parameters; the external schema unifier
`unify_block_metadata_schema` is passed in as a function argument.  Python
`assert` failures at construction are modelled by returning `none` from the
constructor; mutation is modelled by explicit state passing (each mutating
method returns the new state, and `aggregate_output_metadata`, which writes
the memoization cache, returns the result paired with the new state).
-/

/-- Per-block descriptor, from `ray.data.block.BlockMetadata`: every field may
be unknown (`none`). -/
structure BlockMetadata (Schema ExecStats : Type) where
  num_rows : Option Nat
  size_bytes : Option Nat
  schema : Option Schema
  input_files : Option (List String)
  exec_stats : Option ExecStats
deriving Repr

/-- A bundle of (block reference, metadata) pairs with an ownership flag, from
`ray.data._internal.execution.interfaces.RefBundle`. -/
structure RefBundle (BlockRef Schema ExecStats : Type) where
  blocks : List (BlockRef × BlockMetadata Schema ExecStats)
  owns_blocks : Bool

/-- `RefBundle.metadata`: the metadata of the blocks, in block order. -/
def RefBundle.metadata {BlockRef Schema ExecStats : Type}
    (b : RefBundle BlockRef Schema ExecStats) :
    List (BlockMetadata Schema ExecStats) :=
  b.blocks.map Prod.snd

/-- Modelled from the spec: `RefBundle.num_rows` lives outside the given
source files.  The spec says a bundle's row total is derived from its
constituent blocks, that unknown propagates (any missing per-block value makes
the bundle total missing), and that a bundle with zero blocks contributes a
known count of 0, not unknown. -/
def RefBundle.num_rows {BlockRef Schema ExecStats : Type}
    (b : RefBundle BlockRef Schema ExecStats) : Option Nat :=
  if b.metadata.all (fun m => m.num_rows.isSome) then
    some ((b.metadata.map (fun m => m.num_rows.getD 0)).sum)
  else
    none

/-- State of the deferred leaf operator `InputData`: two nullable fields for
the materialized bundles and the factory, plus the metadata cache.  The base
`LogicalOperator` bookkeeping (name, inputs, output count) is external. -/
structure InputData (BlockRef Schema ExecStats : Type) where
  input_data : Option (List (RefBundle BlockRef Schema ExecStats))
  input_data_factory : Option (Nat → List (RefBundle BlockRef Schema ExecStats))
  _output_metadata_cache : Option (BlockMetadata Schema ExecStats)

/-- `InputData.__init__`: the constructor asserts that exactly one of
`input_data` and `input_data_factory` is set; an assertion failure is
modelled as `none`.  On success the metadata cache starts empty. -/
def InputData.init {BlockRef Schema ExecStats : Type}
    (input_data : Option (List (RefBundle BlockRef Schema ExecStats)))
    (input_data_factory : Option (Nat → List (RefBundle BlockRef Schema ExecStats))) :
    Option (InputData BlockRef Schema ExecStats) :=
  if input_data.isNone != input_data_factory.isNone then
    some { input_data := input_data
           input_data_factory := input_data_factory
           _output_metadata_cache := none }
  else
    none

/-- `InputData.output_data`: `None` when `input_data` is `None`, otherwise the
bundles as-is. -/
def InputData.output_data {BlockRef Schema ExecStats : Type}
    (op : InputData BlockRef Schema ExecStats) :
    Option (List (RefBundle BlockRef Schema ExecStats)) :=
  match op.input_data with
  | none => none
  | some d => some d

/-- `InputData._num_rows`: all-or-unknown sum of the bundles' row counts.  The
source asserts `input_data is not None`; the `none` branch is unreachable at
every call site. -/
def InputData._num_rows {BlockRef Schema ExecStats : Type}
    (op : InputData BlockRef Schema ExecStats) : Option Nat :=
  match op.input_data with
  | none => none
  | some bundles =>
    if bundles.all (fun b => b.num_rows.isSome) then
      some ((bundles.map (fun b => b.num_rows.getD 0)).sum)
    else
      none

/-- `InputData._size_bytes`: all-or-unknown sum of the per-block `size_bytes`
over the flattened metadata of all bundles. -/
def InputData._size_bytes {BlockRef Schema ExecStats : Type}
    (op : InputData BlockRef Schema ExecStats) : Option Nat :=
  match op.input_data with
  | none => none
  | some bundles =>
    let metadata := (bundles.map RefBundle.metadata).flatten
    if metadata.all (fun m => m.size_bytes.isSome) then
      some ((metadata.map (fun m => m.size_bytes.getD 0)).sum)
    else
      none

/-- `InputData._schema`: delegates to the external unifier over the flattened
per-block metadata, bundle order preserved. -/
def InputData._schema {BlockRef Schema ExecStats : Type}
    (unify : List (BlockMetadata Schema ExecStats) → Option Schema)
    (op : InputData BlockRef Schema ExecStats) : Option Schema :=
  match op.input_data with
  | none => none
  | some bundles => unify ((bundles.map RefBundle.metadata).flatten)

/-- `InputData._compute_output_metadata`: the aggregate record, with
`input_files` and `exec_stats` always unknown. -/
def InputData._compute_output_metadata {BlockRef Schema ExecStats : Type}
    (unify : List (BlockMetadata Schema ExecStats) → Option Schema)
    (op : InputData BlockRef Schema ExecStats) : BlockMetadata Schema ExecStats :=
  { num_rows := op._num_rows
    size_bytes := op._size_bytes
    schema := InputData._schema unify op
    input_files := none
    exec_stats := none }

/-- `InputData.aggregate_output_metadata`: if `input_data` is `None` an
all-unknown record is returned immediately; otherwise the cache is filled on
first use and returned.  The (possibly updated) state is returned alongside
the record. -/
def InputData.aggregate_output_metadata {BlockRef Schema ExecStats : Type}
    (unify : List (BlockMetadata Schema ExecStats) → Option Schema)
    (op : InputData BlockRef Schema ExecStats) :
    BlockMetadata Schema ExecStats × InputData BlockRef Schema ExecStats :=
  match op.input_data with
  | none => (⟨none, none, none, none, none⟩, op)
  | some _ =>
    match op._output_metadata_cache with
    | some m => (m, op)
    | none =>
      let m := InputData._compute_output_metadata unify op
      (m, { op with _output_metadata_cache := some m })

/-- Instrumented variant of `InputData.aggregate_output_metadata` whose third
component records whether `_compute_output_metadata` (and hence the schema
unifier) was invoked on this call. -/
def InputData.aggregateWithFlag {BlockRef Schema ExecStats : Type}
    (unify : List (BlockMetadata Schema ExecStats) → Option Schema)
    (op : InputData BlockRef Schema ExecStats) :
    BlockMetadata Schema ExecStats × InputData BlockRef Schema ExecStats × Bool :=
  match op.input_data with
  | none => (⟨none, none, none, none, none⟩, op, false)
  | some _ =>
    match op._output_metadata_cache with
    | some m => (m, op, false)
    | none =>
      let m := InputData._compute_output_metadata unify op
      (m, { op with _output_metadata_cache := some m }, true)

/-- `InputData.is_lineage_serializable`: always `false`. -/
def InputData.is_lineage_serializable {BlockRef Schema ExecStats : Type}
    (_op : InputData BlockRef Schema ExecStats) : Bool :=
  false

/-- `InputData.invalidate_output_metadata_cache`: clears the cache. -/
def InputData.invalidate_output_metadata_cache {BlockRef Schema ExecStats : Type}
    (op : InputData BlockRef Schema ExecStats) :
    InputData BlockRef Schema ExecStats :=
  { op with _output_metadata_cache := none }

/-- `InputData.update_input_data`: replaces `input_data` (the factory field is
left as-is) and invalidates the cache. -/
def InputData.update_input_data {BlockRef Schema ExecStats : Type}
    (op : InputData BlockRef Schema ExecStats)
    (new_input_data : Option (List (RefBundle BlockRef Schema ExecStats))) :
    InputData BlockRef Schema ExecStats :=
  InputData.invalidate_output_metadata_cache { op with input_data := new_input_data }

/-- `InputData.update_input_data_factory`: replaces the factory (the
`input_data` field is left as-is) and invalidates the cache only if
materialized bundles are present. -/
def InputData.update_input_data_factory {BlockRef Schema ExecStats : Type}
    (op : InputData BlockRef Schema ExecStats)
    (new_factory : Option (Nat → List (RefBundle BlockRef Schema ExecStats))) :
    InputData BlockRef Schema ExecStats :=
  let op' := { op with input_data_factory := new_factory }
  if op'.input_data.isSome then
    InputData.invalidate_output_metadata_cache op'
  else
    op'

/-- State of the bound leaf operator `AbstractFrom`: the bundles built at
construction plus the metadata cache. -/
structure AbstractFrom (BlockRef Schema ExecStats : Type) where
  _input_data : List (RefBundle BlockRef Schema ExecStats)
  _output_metadata_cache : Option (BlockMetadata Schema ExecStats)

/-- `AbstractFrom.__init__`: asserts `len(input_blocks) == len(input_metadata)`
(assertion failure modelled as `none`), then builds one single-block bundle
per (ref, metadata) pair, each with `owns_blocks := false`. -/
def AbstractFrom.init {BlockRef Schema ExecStats : Type}
    (input_blocks : List BlockRef)
    (input_metadata : List (BlockMetadata Schema ExecStats)) :
    Option (AbstractFrom BlockRef Schema ExecStats) :=
  if input_blocks.length = input_metadata.length then
    some { _input_data :=
             (input_blocks.zip input_metadata).map
               (fun p => { blocks := [(p.1, p.2)], owns_blocks := false })
           _output_metadata_cache := none }
  else
    none

/-- `AbstractFrom.output_data`: returns the bundles as-is. -/
def AbstractFrom.output_data {BlockRef Schema ExecStats : Type}
    (op : AbstractFrom BlockRef Schema ExecStats) :
    List (RefBundle BlockRef Schema ExecStats) :=
  op._input_data

/-- `AbstractFrom._num_rows`: all-or-unknown sum of the bundles' row counts. -/
def AbstractFrom._num_rows {BlockRef Schema ExecStats : Type}
    (op : AbstractFrom BlockRef Schema ExecStats) : Option Nat :=
  if op._input_data.all (fun b => b.num_rows.isSome) then
    some ((op._input_data.map (fun b => b.num_rows.getD 0)).sum)
  else
    none

/-- `AbstractFrom._size_bytes`: all-or-unknown sum of the per-block
`size_bytes` over the flattened metadata of all bundles. -/
def AbstractFrom._size_bytes {BlockRef Schema ExecStats : Type}
    (op : AbstractFrom BlockRef Schema ExecStats) : Option Nat :=
  let metadata := (op._input_data.map RefBundle.metadata).flatten
  if metadata.all (fun m => m.size_bytes.isSome) then
    some ((metadata.map (fun m => m.size_bytes.getD 0)).sum)
  else
    none

/-- `AbstractFrom._schema`: delegates to the external unifier over the
flattened per-block metadata. -/
def AbstractFrom._schema {BlockRef Schema ExecStats : Type}
    (unify : List (BlockMetadata Schema ExecStats) → Option Schema)
    (op : AbstractFrom BlockRef Schema ExecStats) : Option Schema :=
  unify ((op._input_data.map RefBundle.metadata).flatten)

/-- `AbstractFrom._compute_output_metadata`. -/
def AbstractFrom._compute_output_metadata {BlockRef Schema ExecStats : Type}
    (unify : List (BlockMetadata Schema ExecStats) → Option Schema)
    (op : AbstractFrom BlockRef Schema ExecStats) : BlockMetadata Schema ExecStats :=
  { num_rows := op._num_rows
    size_bytes := op._size_bytes
    schema := AbstractFrom._schema unify op
    input_files := none
    exec_stats := none }

/-- `AbstractFrom.aggregate_output_metadata`: memoized aggregation; the
(possibly updated) state is returned alongside the record. -/
def AbstractFrom.aggregate_output_metadata {BlockRef Schema ExecStats : Type}
    (unify : List (BlockMetadata Schema ExecStats) → Option Schema)
    (op : AbstractFrom BlockRef Schema ExecStats) :
    BlockMetadata Schema ExecStats × AbstractFrom BlockRef Schema ExecStats :=
  match op._output_metadata_cache with
  | some m => (m, op)
  | none =>
    let m := AbstractFrom._compute_output_metadata unify op
    (m, { op with _output_metadata_cache := some m })

/-- Instrumented variant of `AbstractFrom.aggregate_output_metadata` whose
third component records whether `_compute_output_metadata` was invoked. -/
def AbstractFrom.aggregateWithFlag {BlockRef Schema ExecStats : Type}
    (unify : List (BlockMetadata Schema ExecStats) → Option Schema)
    (op : AbstractFrom BlockRef Schema ExecStats) :
    BlockMetadata Schema ExecStats × AbstractFrom BlockRef Schema ExecStats × Bool :=
  match op._output_metadata_cache with
  | some m => (m, op, false)
  | none =>
    let m := AbstractFrom._compute_output_metadata unify op
    (m, { op with _output_metadata_cache := some m }, true)

/-- `AbstractFrom.is_lineage_serializable`: always `false`. -/
def AbstractFrom.is_lineage_serializable {BlockRef Schema ExecStats : Type}
    (_op : AbstractFrom BlockRef Schema ExecStats) : Bool :=
  false

/-- `AbstractFrom.invalidate_output_metadata_cache`: clears the cache. -/
def AbstractFrom.invalidate_output_metadata_cache {BlockRef Schema ExecStats : Type}
    (op : AbstractFrom BlockRef Schema ExecStats) :
    AbstractFrom BlockRef Schema ExecStats :=
  { op with _output_metadata_cache := none }

/-- Specification-side all-or-unknown sum over a list of optional counts:
`some` of the sum when every entry is known, `none` as soon as any entry is
unknown; the empty list sums to a known 0. -/
def optionSum (l : List (Option Nat)) : Option Nat :=
  l.foldr
    (fun a acc =>
      match a, acc with
      | some x, some y => some (x + y)
      | _, _ => none)
    (some 0)

/-- Unfolding `optionSum` on a cons cell. -/
lemma optionSum_cons (a : Option Nat) (t : List (Option Nat)) :
    optionSum (a :: t) =
      match a, optionSum t with
      | some x, some y => some (x + y)
      | _, _ => none :=
  rfl

/-- The source's all-or-unknown guard-and-sum computes exactly `optionSum`. -/
lemma ifAll_eq_optionSum (l : List (Option Nat)) :
    (if l.all Option.isSome then some ((l.map (fun o => o.getD 0)).sum) else none)
      = optionSum l := by
  induction l with
  | nil => rfl
  | cons a t ih =>
    rw [optionSum_cons, ← ih]
    cases a with
    | none => simp
    | some x =>
      by_cases h : t.all Option.isSome = true
      · simp [h]
      · simp [h]

/-- Same bridge, stated after mapping an extraction function over a list. -/
lemma allOrUnknown_map {α : Type} (g : α → Option Nat) (l : List α) :
    (if l.all (fun x => (g x).isSome) then some ((l.map (fun x => (g x).getD 0)).sum) else none)
      = optionSum (l.map g) := by
  rw [← ifAll_eq_optionSum]
  simp [List.all_map, List.map_map, Function.comp_def]

/-- `optionSum` is `none` exactly when some entry is `none`. -/
lemma optionSum_eq_none_iff (l : List (Option Nat)) :
    optionSum l = none ↔ none ∈ l := by
  induction l with
  | nil => simp [optionSum]
  | cons a t ih =>
    rw [optionSum_cons]
    cases a with
    | none => simp
    | some x =>
      cases h : optionSum t with
      | none => simp [← ih, h]
      | some y => simp [← ih, h]

/-- Concrete per-block metadata used by the witnesses. -/
def mdK (r sb : Option Nat) : BlockMetadata Nat Unit :=
  { num_rows := r, size_bytes := sb, schema := none, input_files := none,
    exec_stats := none }

/-- Concrete single-block bundle used by the witnesses. -/
def bK (r sb : Option Nat) : RefBundle Nat Nat Unit :=
  { blocks := [(0, mdK r sb)], owns_blocks := false }

/-- Concrete factory used by the witnesses. -/
def facEmpty : Nat → List (RefBundle Nat Nat Unit) := fun _ => []

/-- A deferred operator holding only a factory, as `InputData.init` builds it. -/
def opFac : InputData Nat Nat Unit :=
  { input_data := none, input_data_factory := some facEmpty,
    _output_metadata_cache := none }

/-- A deferred operator holding only materialized bundles. -/
def opBound1 : InputData Nat Nat Unit :=
  { input_data := some [bK (some 1) (some 1)], input_data_factory := none,
    _output_metadata_cache := none }

/-- C1, amended: at construction exactly one of `input_data` and
`input_data_factory` is populated (the constructor's assertion); the update
methods replace only their own field, so this can later be broken. -/
theorem C1_init_exactly_one {B S E : Type}
    (d : Option (List (RefBundle B S E)))
    (f : Option (Nat → List (RefBundle B S E)))
    (op : InputData B S E) (h : InputData.init d f = some op) :
    (op.input_data.isNone != op.input_data_factory.isNone) = true := by
  unfold InputData.init at h
  split at h
  · rename_i hc
    cases h
    exact hc
  · cases h

/-- Witness for C1: a concrete successful construction satisfies the
exactly-one invariant. -/
theorem C1_init_exactly_one_witness :
    InputData.init (some [bK (some 1) (some 1)]) none = some opBound1 ∧
    (opBound1.input_data.isNone != opBound1.input_data_factory.isNone) = true :=
  ⟨rfl, C1_init_exactly_one (some [bK (some 1) (some 1)]) none opBound1 rfl⟩

/-- Counterexample to C1 as stated: an operator constructed with only a
factory reaches, after one `update_input_data` call, a state where both
`input_data` and `input_data_factory` are populated simultaneously. -/
theorem C1_both_set_reachable :
    InputData.init none (some facEmpty) = some opFac ∧
    (opFac.update_input_data (some [bK (some 10) (some 1)])).input_data.isSome = true ∧
    (opFac.update_input_data
        (some [bK (some 10) (some 1)])).input_data_factory.isSome = true :=
  ⟨rfl, rfl, rfl⟩

/-- C5: constructing an `InputData` with both a bundle list and a factory
fails, constructing with neither fails, and construction succeeds exactly
when precisely one of the two is supplied. -/
theorem C5_init_exclusivity {B S E : Type}
    (d : Option (List (RefBundle B S E)))
    (f : Option (Nat → List (RefBundle B S E))) :
    (d.isSome = true → f.isSome = true → InputData.init d f = none) ∧
    (d = none → f = none → InputData.init d f = none) ∧
    (d.isSome = true → f = none → (InputData.init d f).isSome = true) ∧
    (d = none → f.isSome = true → (InputData.init d f).isSome = true) := by
  cases d <;> cases f <;> simp [InputData.init]

/-- Witness for C5: each of the four construction cases at concrete inputs. -/
theorem C5_init_exclusivity_witness :
    InputData.init (some [bK (some 1) (some 1)]) (some facEmpty) = none ∧
    InputData.init (none : Option (List (RefBundle Nat Nat Unit))) none = none ∧
    (InputData.init (some [bK (some 1) (some 1)]) none).isSome = true ∧
    (InputData.init (none : Option (List (RefBundle Nat Nat Unit)))
        (some facEmpty)).isSome = true :=
  ⟨(C5_init_exclusivity _ _).1 rfl rfl,
   (C5_init_exclusivity _ _).2.1 rfl rfl,
   (C5_init_exclusivity _ _).2.2.1 rfl rfl,
   (C5_init_exclusivity _ _).2.2.2 rfl rfl⟩

/-- C2: immediately after `update_input_data (some nb)`, the aggregate is the
fresh computation over the operator now holding `nb` — the prior cache can
never be returned — and its `num_rows` field is the option-sum of the new
bundles' row counts. -/
theorem C2_update_then_aggregate {B S E : Type}
    (unify : List (BlockMetadata S E) → Option S)
    (op : InputData B S E) (nb : List (RefBundle B S E)) :
    (InputData.aggregate_output_metadata unify (op.update_input_data (some nb))).1
      = InputData._compute_output_metadata unify (op.update_input_data (some nb)) ∧
    (op.update_input_data (some nb)).input_data = some nb ∧
    ((InputData.aggregate_output_metadata unify
        (op.update_input_data (some nb))).1).num_rows
      = optionSum (nb.map RefBundle.num_rows) := by
  rcases op with ⟨d, fc, c⟩
  exact ⟨rfl, rfl, allOrUnknown_map _ _⟩

/-- C3: for both leaf operator kinds the aggregate `num_rows` is the
all-or-unknown sum of the per-bundle row counts, and one unknown bundle makes
the aggregate unknown. -/
theorem C3_num_rows_all_or_unknown {B S E : Type}
    (op : InputData B S E) (bundles : List (RefBundle B S E))
    (af : AbstractFrom B S E) (h : op.input_data = some bundles) :
    op._num_rows = optionSum (bundles.map RefBundle.num_rows) ∧
    af._num_rows = optionSum (af.output_data.map RefBundle.num_rows) ∧
    ((∃ b ∈ bundles, b.num_rows = none) → op._num_rows = none) := by
  rcases op with ⟨d, fc, c⟩
  obtain rfl : d = some bundles := h
  refine ⟨allOrUnknown_map _ _, allOrUnknown_map _ _, ?_⟩
  rintro ⟨b, hb, hbn⟩
  calc (InputData.mk (some bundles) fc c)._num_rows
      = optionSum (bundles.map RefBundle.num_rows) := allOrUnknown_map _ _
    _ = none := (optionSum_eq_none_iff _).mpr (List.mem_map.mpr ⟨b, hb, hbn⟩)

/-- Bundles for the C3 witness: row counts 10, unknown, 5. -/
def bundles3 : List (RefBundle Nat Nat Unit) :=
  [bK (some 10) (some 1), bK none (some 1), bK (some 5) (some 1)]

/-- Deferred operator for the C3 witness. -/
def op3 : InputData Nat Nat Unit :=
  { input_data := some bundles3, input_data_factory := none,
    _output_metadata_cache := none }

/-- Bound operator for the C3 witness, with row counts 10, 0, 5. -/
def af3 : AbstractFrom Nat Nat Unit :=
  { _input_data := [bK (some 10) (some 4), bK (some 0) (some 2), bK (some 5) (some 1)],
    _output_metadata_cache := none }

/-- Witness for C3: on rows [10, unknown, 5] the aggregate is unknown; on
rows [10, 0, 5] it is 15. -/
theorem C3_num_rows_all_or_unknown_witness :
    op3.input_data = some bundles3 ∧
    (op3._num_rows = optionSum (bundles3.map RefBundle.num_rows) ∧
     af3._num_rows = optionSum (af3.output_data.map RefBundle.num_rows) ∧
     ((∃ b ∈ bundles3, b.num_rows = none) → op3._num_rows = none)) ∧
    op3._num_rows = none ∧
    af3._num_rows = some 15 :=
  ⟨rfl, C3_num_rows_all_or_unknown op3 bundles3 af3 rfl, rfl, rfl⟩

/-- C6: a deferred operator constructed with only a factory has
`output_data = none` and an all-unknown aggregate, and this persists under
factory updates (which never populate `input_data`). -/
theorem C6_factory_only {B S E : Type}
    (unify : List (BlockMetadata S E) → Option S)
    (f0 : Nat → List (RefBundle B S E)) :
    InputData.init none (some f0) = some (InputData.mk none (some f0) none) ∧
    (InputData.mk none (some f0)
        (none : Option (BlockMetadata S E))).output_data = none ∧
    InputData.aggregate_output_metadata unify (InputData.mk none (some f0) none)
      = (⟨none, none, none, none, none⟩, InputData.mk none (some f0) none) ∧
    ∀ g, ((InputData.mk none (some f0)
            (none : Option (BlockMetadata S E))).update_input_data_factory g).output_data
          = none :=
  ⟨rfl, rfl, rfl, fun _ => rfl⟩

/-- C9: `update_input_data_factory` replaces the factory, leaves `input_data`
as-is, and clears the cache exactly when materialized bundles are present,
leaving the cache untouched otherwise. -/
theorem C9_update_factory_conditional_invalidation {B S E : Type}
    (op : InputData B S E)
    (f : Option (Nat → List (RefBundle B S E))) :
    (op.update_input_data_factory f).input_data_factory = f ∧
    (op.update_input_data_factory f).input_data = op.input_data ∧
    (op.update_input_data_factory f)._output_metadata_cache
      = (if op.input_data.isSome then none else op._output_metadata_cache) := by
  rcases op with ⟨d, fc, c⟩
  cases d <;> exact ⟨rfl, rfl, rfl⟩

/-- C10: when `input_data` is absent, `aggregate_output_metadata` returns a
fresh all-unknown record and leaves the state — in particular any previously
populated cache value — completely unchanged, for every cache content. -/
theorem C10_factory_state_bypasses_cache {B S E : Type}
    (unify : List (BlockMetadata S E) → Option S)
    (fc : Option (Nat → List (RefBundle B S E)))
    (c : Option (BlockMetadata S E)) :
    InputData.aggregate_output_metadata unify (InputData.mk none fc c)
      = (⟨none, none, none, none, none⟩, InputData.mk none fc c) ∧
    (InputData.aggregate_output_metadata unify
        (InputData.mk none fc c)).2._output_metadata_cache = c ∧
    (InputData.aggregateWithFlag unify (InputData.mk none fc c)).2.2 = false :=
  ⟨rfl, rfl, rfl⟩

/-- C4: a bound operator exposes exactly one bundle per input block ref, and
construction fails exactly when the refs/metadata counts differ. -/
theorem C4_shape {B S E : Type} (refs : List B) (mds : List (BlockMetadata S E)) :
    (∀ af : AbstractFrom B S E, AbstractFrom.init refs mds = some af →
        af.output_data.length = refs.length) ∧
    (AbstractFrom.init refs mds = none ↔ refs.length ≠ mds.length) := by
  by_cases h : refs.length = mds.length
  · refine ⟨?_, ?_⟩
    · intro af haf
      rw [AbstractFrom.init, if_pos h] at haf
      injection haf with h2
      subst h2
      simp [AbstractFrom.output_data, List.length_zip, h]
    · rw [AbstractFrom.init, if_pos h]
      simp [h]
  · refine ⟨?_, ?_⟩
    · intro af haf
      rw [AbstractFrom.init, if_neg h] at haf
      cases haf
    · rw [AbstractFrom.init, if_neg h]
      simp [h]

/-- Bound operator produced by `AbstractFrom.init [5] [mdK (some 1) (some 1)]`. -/
def afOne : AbstractFrom Nat Nat Unit :=
  { _input_data := [{ blocks := [(5, mdK (some 1) (some 1))], owns_blocks := false }],
    _output_metadata_cache := none }

/-- Witness for C4: 3 refs against 2 metadata records fail to construct, and a
1-ref construction yields 1 output bundle. -/
theorem C4_shape_witness :
    AbstractFrom.init ([0, 1, 2] : List Nat)
        [mdK (some 1) (some 1), mdK (some 2) (some 2)] = none ∧
    AbstractFrom.init ([5] : List Nat) [mdK (some 1) (some 1)] = some afOne ∧
    afOne.output_data.length = ([5] : List Nat).length :=
  ⟨(C4_shape [0, 1, 2] [mdK (some 1) (some 1), mdK (some 2) (some 2)]).2.mpr
      (by decide),
   rfl,
   (C4_shape [5] [mdK (some 1) (some 1)]).1 afOne rfl⟩

/-- C7: for both leaf operator kinds the aggregate `size_bytes` is the
all-or-unknown sum over the flattened per-block `size_bytes` values (bundle
order, then intra-bundle block order), and one unknown block makes the
aggregate unknown. -/
theorem C7_size_bytes_all_or_unknown {B S E : Type}
    (op : InputData B S E) (bundles : List (RefBundle B S E))
    (af : AbstractFrom B S E) (h : op.input_data = some bundles) :
    op._size_bytes
      = optionSum (((bundles.map RefBundle.metadata).flatten).map
          (fun m => m.size_bytes)) ∧
    af._size_bytes
      = optionSum (((af.output_data.map RefBundle.metadata).flatten).map
          (fun m => m.size_bytes)) ∧
    ((∃ m ∈ (bundles.map RefBundle.metadata).flatten, m.size_bytes = none) →
        op._size_bytes = none) := by
  rcases op with ⟨d, fc, c⟩
  obtain rfl : d = some bundles := h
  refine ⟨allOrUnknown_map _ _, allOrUnknown_map _ _, ?_⟩
  rintro ⟨m, hm, hmn⟩
  calc (InputData.mk (some bundles) fc c)._size_bytes
      = optionSum (((bundles.map RefBundle.metadata).flatten).map
          (fun m => m.size_bytes)) := allOrUnknown_map _ _
    _ = none := (optionSum_eq_none_iff _).mpr (List.mem_map.mpr ⟨m, hm, hmn⟩)

/-- Bundles for the C7 witness: a two-block bundle whose second block has
unknown `size_bytes`, then a known one-block bundle. -/
def bundles7 : List (RefBundle Nat Nat Unit) :=
  [{ blocks := [(0, mdK (some 1) (some 3)), (1, mdK (some 1) none)],
     owns_blocks := false },
   bK (some 2) (some 4)]

/-- Deferred operator for the C7 witness. -/
def op7 : InputData Nat Nat Unit :=
  { input_data := some bundles7, input_data_factory := none,
    _output_metadata_cache := none }

/-- Bound operator for the C7 witness, with all block sizes known (3 and 4). -/
def af7 : AbstractFrom Nat Nat Unit :=
  { _input_data := [bK (some 1) (some 3), bK (some 2) (some 4)],
    _output_metadata_cache := none }

/-- Witness for C7: one unknown block size yields an unknown aggregate; all
sizes known (3, 4) yields 7. -/
theorem C7_size_bytes_all_or_unknown_witness :
    op7.input_data = some bundles7 ∧
    (op7._size_bytes
        = optionSum (((bundles7.map RefBundle.metadata).flatten).map
            (fun m => m.size_bytes)) ∧
     af7._size_bytes
        = optionSum (((af7.output_data.map RefBundle.metadata).flatten).map
            (fun m => m.size_bytes)) ∧
     ((∃ m ∈ (bundles7.map RefBundle.metadata).flatten, m.size_bytes = none) →
        op7._size_bytes = none)) ∧
    op7._size_bytes = none ∧
    af7._size_bytes = some 7 :=
  ⟨rfl, C7_size_bytes_all_or_unknown op7 bundles7 af7 rfl, rfl, rfl⟩

/-- C8: for both leaf operator kinds, two successive `aggregate_output_metadata`
calls with no intervening mutation return the identical record and state, the
instrumented variant agrees with the plain one, and the second call never
invokes the aggregation computation. -/
theorem C8_aggregate_idempotent_memoized {B S E : Type}
    (unify : List (BlockMetadata S E) → Option S)
    (op : InputData B S E) (af : AbstractFrom B S E) :
    InputData.aggregate_output_metadata unify
        (InputData.aggregate_output_metadata unify op).2
      = ((InputData.aggregate_output_metadata unify op).1,
         (InputData.aggregate_output_metadata unify op).2) ∧
    (InputData.aggregateWithFlag unify op).1
      = (InputData.aggregate_output_metadata unify op).1 ∧
    (InputData.aggregateWithFlag unify op).2.1
      = (InputData.aggregate_output_metadata unify op).2 ∧
    (InputData.aggregateWithFlag unify
        (InputData.aggregateWithFlag unify op).2.1).2.2 = false ∧
    AbstractFrom.aggregate_output_metadata unify
        (AbstractFrom.aggregate_output_metadata unify af).2
      = ((AbstractFrom.aggregate_output_metadata unify af).1,
         (AbstractFrom.aggregate_output_metadata unify af).2) ∧
    (AbstractFrom.aggregateWithFlag unify af).1
      = (AbstractFrom.aggregate_output_metadata unify af).1 ∧
    (AbstractFrom.aggregateWithFlag unify af).2.1
      = (AbstractFrom.aggregate_output_metadata unify af).2 ∧
    (AbstractFrom.aggregateWithFlag unify
        (AbstractFrom.aggregateWithFlag unify af).2.1).2.2 = false := by
  rcases op with ⟨d, fc, c⟩
  rcases af with ⟨l, ac⟩
  cases d <;> cases c <;> cases ac <;>
    exact ⟨rfl, rfl, rfl, rfl, rfl, rfl, rfl, rfl⟩
